import Mathlib

/-!
Inspection mission planner: goal geometry state.

Shallow embedding of `MissionPlannerInspection`
(`packages/mission_planner/include/mission_planner_inspection.hpp`).

The class is a record of its data members; every member function is a pure
function from the record before the call to the record after it.  A scalar
member holds a rational number, the finite value stored in it; the two zeros
of `float` are one value, and a result that is not finite is `none`.

The increments come in two forms.  `incDistanceToInspect` and
`incRelativeAngle` compute with exact numbers.  `incDistanceToInspectFloat` and
`incRelativeAngleFloat` make the conversion to `float` explicit that the code
performs when the sum or difference is passed to the setter; the conversion is
a parameter, and `roundBinary32` is the IEEE 754 binary32 conversion (round to
nearest, ties to even).  With the conversion that changes nothing the second
form is the first.
-/

namespace MissionPlanner

/-- Model of `Eigen::Vector3d`: three scalar coordinates. -/
structure Vector3d where
  x : ℚ
  y : ℚ
  z : ℚ
deriving DecidableEq

/-- Model of `Eigen::Vector3d::Zero()`. -/
def Vector3d.Zero : Vector3d := ⟨0, 0, 0⟩

/-- Modelled from the spec: the struct `trajectory_planner::state` is declared
in `trajectory_planner.hpp`; a goal is a position plus further data.  The model
has the field `pos` that `refreshGoals` writes and gathers every remaining
field of the struct in `rest`, whose type is left as a parameter. -/
structure state (σ : Type) where
  pos : Vector3d
  rest : σ
deriving DecidableEq

/-- Modelled from the spec: the struct `inspection_params` is declared in
`mission_planner_types.hpp`; the header under study reads its members
`inc_distance` and `inc_angle` (the spec's `distanceStep` and `angleStep`). -/
structure inspection_params where
  inc_distance : ℚ
  inc_angle : ℚ
deriving DecidableEq

/-- Data members of `MissionPlannerInspection`: `goals_` is the sequence of
states inherited from `trajectory_planner::TrajectoryPlanner` that the loop of
line 118 iterates, the other four are the protected members of lines 109-112. -/
structure MissionPlannerInspection (σ : Type) where
  goals_ : List (state σ)
  point_to_inspect_ : Vector3d
  distance_to_inspect_point_ : ℚ
  relative_angle_ : ℚ
  inspection_params_ : inspection_params
deriving DecidableEq

/-- The private constant `TOL_INSPECTION_ZONE` (line 125). -/
def TOL_INSPECTION_ZONE : ℚ := 1

/-- Type of the member function `pointOnCircle` (declared on line 106, defined
outside this header).  It is called on a point and may read the inspection
members of the object: the point to inspect, the distance and the relative
angle, in this order, followed by the argument `point`. -/
abbrev Projector : Type := Vector3d → ℚ → ℚ → Vector3d → Vector3d

/-- Modelled from the spec: the constructor of line 26 is defined outside this
header; the object is seeded with defaults at construction.  The defaults are
the member initialisers of lines 109-111 (`Zero()`, `3`, `0.7`), where `0.7`
stored in a `float` is `11744051 / 2 ^ 24`; the constructor argument
`_inspection_params` is stored in `inspection_params_` and the inherited goal
sequence is whatever the base class left, a parameter. -/
def constructed {σ : Type} (_inspection_params : inspection_params)
    (goals : List (state σ)) : MissionPlannerInspection σ :=
  { goals_ := goals
    point_to_inspect_ := Vector3d.Zero
    distance_to_inspect_point_ := 3
    relative_angle_ := 11744051 / 16777216
    inspection_params_ := _inspection_params }

/-- Lines 38-40: `point_to_inspect_ = std::move(_point)`. -/
def setPointToInspect {σ : Type} (self : MissionPlannerInspection σ)
    (_point : Vector3d) : MissionPlannerInspection σ :=
  { self with point_to_inspect_ := _point }

/-- Line 47: `return point_to_inspect_`. -/
def getPointToInspect {σ : Type} (self : MissionPlannerInspection σ) : Vector3d :=
  self.point_to_inspect_

/-- Lines 54-56: `distance_to_inspect_point_ = _distance`. -/
def setDistanceToInspect {σ : Type} (self : MissionPlannerInspection σ)
    (_distance : ℚ) : MissionPlannerInspection σ :=
  { self with distance_to_inspect_point_ := _distance }

/-- Lines 63-66: add or subtract `inspection_params_.inc_distance` through the
absolute setter. -/
def incDistanceToInspect {σ : Type} (self : MissionPlannerInspection σ)
    (_distance : Bool) : MissionPlannerInspection σ :=
  if _distance then
    setDistanceToInspect self
      (self.distance_to_inspect_point_ + self.inspection_params_.inc_distance)
  else
    setDistanceToInspect self
      (self.distance_to_inspect_point_ - self.inspection_params_.inc_distance)

/-- Line 73: `return distance_to_inspect_point_`. -/
def getDistanceToInspect {σ : Type} (self : MissionPlannerInspection σ) : ℚ :=
  self.distance_to_inspect_point_

/-- Line 80: `relative_angle_ = _angle`. -/
def setRelativeAngle {σ : Type} (self : MissionPlannerInspection σ)
    (_angle : ℚ) : MissionPlannerInspection σ :=
  { self with relative_angle_ := _angle }

/-- Line 87: `return relative_angle_`. -/
def getRelativeAngle {σ : Type} (self : MissionPlannerInspection σ) : ℚ :=
  self.relative_angle_

/-- Lines 94-97: add or subtract `inspection_params_.inc_angle` through the
absolute setter. -/
def incRelativeAngle {σ : Type} (self : MissionPlannerInspection σ)
    (_angle : Bool) : MissionPlannerInspection σ :=
  if _angle then
    setRelativeAngle self (self.relative_angle_ + self.inspection_params_.inc_angle)
  else
    setRelativeAngle self (self.relative_angle_ - self.inspection_params_.inc_angle)

/-- Body of the loop of lines 118-120 run over the goals in order: each `goal`
is a reference into the sequence and only `goal.pos` is assigned. -/
def refreshLoop {σ : Type} (f : Vector3d → Vector3d) : List (state σ) → List (state σ)
  | [] => []
  | goal :: goals => { goal with pos := f goal.pos } :: refreshLoop f goals

/-- Lines 117-121: `for (auto &goal : goals_) goal.pos = pointOnCircle(goal.pos)`,
with `pointOnCircle` evaluated on the members of the object. -/
def refreshGoals {σ : Type} (pointOnCircle : Projector)
    (self : MissionPlannerInspection σ) : MissionPlannerInspection σ :=
  { self with
    goals_ := refreshLoop
      (pointOnCircle self.point_to_inspect_ self.distance_to_inspect_point_
        self.relative_angle_)
      self.goals_ }

/-! ## Storing into a `float` -/

/-- Nearest integer to `r`, the even one of the two when `r` lies half way. -/
def roundHalfEven (r : ℚ) : ℤ :=
  if r - ⌊r⌋ < 1 / 2 then ⌊r⌋
  else if 1 / 2 < r - ⌊r⌋ then ⌊r⌋ + 1
  else if ⌊r⌋ % 2 = 0 then ⌊r⌋
  else ⌊r⌋ + 1

/-- Exponent of the spacing of binary32 values around `x`: 24 significant bits
below the leading power of two of `|x|`, and `-149` in the subnormal range. -/
def ulpExponent (x : ℚ) : ℤ := max (Int.log 2 |x| - 23) (-149)

/-- Conversion of an exact value to IEEE 754 binary32, round to nearest with
ties to even: the multiple of the spacing nearest to `x`, and `none` when its
magnitude reaches `2 ^ 128`, where the conversion gives an infinity. -/
def roundBinary32 (x : ℚ) : Option ℚ :=
  if |(roundHalfEven (x / 2 ^ ulpExponent x) : ℚ) * 2 ^ ulpExponent x| < 2 ^ 128 then
    some ((roundHalfEven (x / 2 ^ ulpExponent x) : ℚ) * 2 ^ ulpExponent x)
  else
    none

/-- Lines 63-66 with the conversion made explicit: `setDistanceToInspect` takes
a `const float &`, so the sum or difference is converted to `float` by
`toFloat` before the setter stores it; `none` when the converted value is not
finite. -/
def incDistanceToInspectFloat {σ : Type} (toFloat : ℚ → Option ℚ)
    (self : MissionPlannerInspection σ) (_distance : Bool) :
    Option (MissionPlannerInspection σ) :=
  if _distance then
    (toFloat (self.distance_to_inspect_point_ + self.inspection_params_.inc_distance)).map
      (setDistanceToInspect self)
  else
    (toFloat (self.distance_to_inspect_point_ - self.inspection_params_.inc_distance)).map
      (setDistanceToInspect self)

/-- Lines 94-97 with the conversion made explicit: `setRelativeAngle` takes a
`const float &`, so the sum or difference is converted to `float` by `toFloat`
before the setter stores it; `none` when the converted value is not finite. -/
def incRelativeAngleFloat {σ : Type} (toFloat : ℚ → Option ℚ)
    (self : MissionPlannerInspection σ) (_angle : Bool) :
    Option (MissionPlannerInspection σ) :=
  if _angle then
    (toFloat (self.relative_angle_ + self.inspection_params_.inc_angle)).map
      (setRelativeAngle self)
  else
    (toFloat (self.relative_angle_ - self.inspection_params_.inc_angle)).map
      (setRelativeAngle self)

/-! ## Properties used to state the results -/

/-- Squared Euclidean distance between two points. -/
def squaredDistance (a b : Vector3d) : ℚ :=
  (a.x - b.x) ^ 2 + (a.y - b.y) ^ 2 + (a.z - b.z) ^ 2

/-- The point `p` lies at Euclidean distance `d` from `c`, written without a
square root: `d` is not negative and the squared distance is `d ^ 2`. -/
def atDistance (p c : Vector3d) (d : ℚ) : Prop :=
  0 ≤ d ∧ squaredDistance p c = d ^ 2

instance (p c : Vector3d) (d : ℚ) : Decidable (atDistance p c d) := by
  unfold atDistance
  infer_instance

/-- Everything but `point_to_inspect_` is the same in `s` and `t`. -/
def sameExceptPoint {σ : Type} (s t : MissionPlannerInspection σ) : Prop :=
  t.goals_ = s.goals_ ∧
  t.distance_to_inspect_point_ = s.distance_to_inspect_point_ ∧
  t.relative_angle_ = s.relative_angle_ ∧
  t.inspection_params_ = s.inspection_params_

/-- Everything but `distance_to_inspect_point_` is the same in `s` and `t`. -/
def sameExceptDistance {σ : Type} (s t : MissionPlannerInspection σ) : Prop :=
  t.goals_ = s.goals_ ∧
  t.point_to_inspect_ = s.point_to_inspect_ ∧
  t.relative_angle_ = s.relative_angle_ ∧
  t.inspection_params_ = s.inspection_params_

/-- Everything but `relative_angle_` is the same in `s` and `t`. -/
def sameExceptAngle {σ : Type} (s t : MissionPlannerInspection σ) : Prop :=
  t.goals_ = s.goals_ ∧
  t.point_to_inspect_ = s.point_to_inspect_ ∧
  t.distance_to_inspect_point_ = s.distance_to_inspect_point_ ∧
  t.inspection_params_ = s.inspection_params_

/-- One call among the increment and refresh operations of the class. -/
inductive Call where
  | incDistance (increase : Bool)
  | incAngle (increase : Bool)
  | refresh
deriving DecidableEq

/-- Effect of one call on the object, with the conversion to `float` of the
increments explicit; `none` when a stored value is not finite. -/
def Call.runFloat {σ : Type} (toFloat : ℚ → Option ℚ) (pointOnCircle : Projector)
    (self : MissionPlannerInspection σ) : Call → Option (MissionPlannerInspection σ)
  | .incDistance b => incDistanceToInspectFloat toFloat self b
  | .incAngle b => incRelativeAngleFloat toFloat self b
  | .refresh => some (refreshGoals pointOnCircle self)

/-- Effect of a finite sequence of calls, first call first. -/
def runCallsFloat {σ : Type} (toFloat : ℚ → Option ℚ) (pointOnCircle : Projector) :
    MissionPlannerInspection σ → List Call → Option (MissionPlannerInspection σ)
  | self, [] => some self
  | self, c :: calls =>
    match Call.runFloat toFloat pointOnCircle self c with
    | some next => runCallsFloat toFloat pointOnCircle next calls
    | none => none

/-- The caller bounds the distance: every `incDistanceToInspect(false)` of the
sequence is made on an object whose distance is at least `inc_distance`. -/
def decreasesGuarded {σ : Type} (toFloat : ℚ → Option ℚ) (pointOnCircle : Projector) :
    MissionPlannerInspection σ → List Call → Bool
  | _, [] => true
  | self, c :: calls =>
    (c != Call.incDistance false ||
      decide (self.inspection_params_.inc_distance ≤ self.distance_to_inspect_point_)) &&
    match Call.runFloat toFloat pointOnCircle self c with
    | some next => decreasesGuarded toFloat pointOnCircle next calls
    | none => true

/-! ## Auxiliary facts -/

theorem refreshLoop_eq_map {σ : Type} (f : Vector3d → Vector3d) (goals : List (state σ)) :
    refreshLoop f goals = goals.map (fun g => { g with pos := f g.pos }) := by
  induction goals with
  | nil => rfl
  | cons goal goals ih => simp [refreshLoop, ih]

theorem refreshLoop_length {σ : Type} (f : Vector3d → Vector3d) (goals : List (state σ)) :
    (refreshLoop f goals).length = goals.length := by
  rw [refreshLoop_eq_map, List.length_map]

theorem mem_refreshLoop {σ : Type} (f : Vector3d → Vector3d) (goals : List (state σ))
    (g : state σ) (hg : g ∈ refreshLoop f goals) :
    ∃ g0 ∈ goals, g.pos = f g0.pos ∧ g.rest = g0.rest := by
  rw [refreshLoop_eq_map, List.mem_map] at hg
  obtain ⟨g0, hmem, rfl⟩ := hg
  exact ⟨g0, hmem, rfl, rfl⟩

theorem refreshLoop_idem {σ : Type} (f : Vector3d → Vector3d)
    (hf : ∀ p, f (f p) = f p) (goals : List (state σ)) :
    refreshLoop f (refreshLoop f goals) = refreshLoop f goals := by
  induction goals with
  | nil => rfl
  | cons goal goals ih => simp [refreshLoop, ih, hf]

theorem log_abs_eq (x : ℚ) (k : ℤ) (hlo : (2 : ℚ) ^ k ≤ |x|) (hhi : |x| < (2 : ℚ) ^ (k + 1)) :
    Int.log 2 |x| = k := by
  have hpos : (0 : ℚ) < |x| := lt_of_lt_of_le (by positivity) hlo
  have h1 : k ≤ Int.log 2 |x| := by
    rw [← Int.zpow_le_iff_le_log (by norm_num) hpos]
    exact_mod_cast hlo
  have h2 : Int.log 2 |x| < k + 1 := by
    rw [← Int.lt_zpow_iff_log_lt (by norm_num) hpos]
    exact_mod_cast hhi
  omega

theorem roundHalfEven_of_floor (r : ℚ) (n : ℤ) (h1 : (n : ℚ) ≤ r) (h2 : r < n + 1) :
    roundHalfEven r =
      if r - n < 1 / 2 then n else if 1 / 2 < r - n then n + 1
      else if n % 2 = 0 then n else n + 1 := by
  have hfl : ⌊r⌋ = n := Int.floor_eq_iff.mpr ⟨h1, h2⟩
  simp only [roundHalfEven, hfl]

/-- Evaluation of `roundBinary32` at `x` from its binade `k`, the exponent `e`
of the spacing there, the floor `n` of `x` in units of the spacing and the
rounded count `m`. -/
theorem roundBinary32_eval (x : ℚ) (k e n m : ℤ) (y : ℚ)
    (hlo : (2 : ℚ) ^ k ≤ x ∨ (2 : ℚ) ^ k ≤ -x)
    (hhi : -(2 : ℚ) ^ (k + 1) < x ∧ x < (2 : ℚ) ^ (k + 1))
    (he : max (k - 23) (-149) = e)
    (hn : (n : ℚ) ≤ x / 2 ^ e ∧ x / 2 ^ e < n + 1)
    (hm : (if x / 2 ^ e - n < 1 / 2 then n else if 1 / 2 < x / 2 ^ e - n then n + 1
      else if n % 2 = 0 then n else n + 1) = m)
    (hy : (m : ℚ) * 2 ^ e = y) (hfin : -(2 : ℚ) ^ 128 < y ∧ y < 2 ^ 128) :
    roundBinary32 x = some y := by
  have hu : ulpExponent x = e := by
    rw [ulpExponent, log_abs_eq x k (le_abs.mpr hlo) (abs_lt.mpr hhi), he]
  have hr : roundHalfEven (x / 2 ^ e) = m := by
    rw [roundHalfEven_of_floor _ n hn.1 hn.2, hm]
  have hf : |y| < 2 ^ 128 := abs_lt.mpr hfin
  simp only [roundBinary32, hu, hr, hy, hf, if_true]

theorem roundHalfEven_zero : roundHalfEven 0 = 0 := by
  rw [roundHalfEven_of_floor 0 0 (by norm_num) (by norm_num)]
  norm_num

theorem roundBinary32_zero : roundBinary32 0 = some 0 := by
  have h : ((roundHalfEven (0 / 2 ^ ulpExponent 0) : ℤ) : ℚ) * 2 ^ ulpExponent 0 = 0 := by
    rw [zero_div, roundHalfEven_zero, Int.cast_zero, zero_mul]
  unfold roundBinary32
  rw [h, abs_zero, if_pos (by positivity)]

theorem roundHalfEven_nonneg (r : ℚ) (hr : 0 ≤ r) : 0 ≤ roundHalfEven r := by
  have h : 0 ≤ ⌊r⌋ := Int.floor_nonneg.mpr hr
  unfold roundHalfEven
  split_ifs <;> omega

/-- The conversion keeps the sign: a value that is not negative is stored as a
value that is not negative. -/
theorem roundBinary32_nonneg (x y : ℚ) (hx : 0 ≤ x) (h : roundBinary32 x = some y) : 0 ≤ y := by
  unfold roundBinary32 at h
  split_ifs at h
  simp only [Option.some.injEq] at h
  rw [← h]
  have h1 : 0 ≤ roundHalfEven (x / 2 ^ ulpExponent x) :=
    roundHalfEven_nonneg _ (div_nonneg hx (zpow_nonneg (by norm_num) _))
  have h2 : (0 : ℚ) ≤ (roundHalfEven (x / 2 ^ ulpExponent x) : ℚ) := by exact_mod_cast h1
  exact mul_nonneg h2 (zpow_nonneg (by norm_num) _)

theorem roundHalfEven_error (r : ℚ) : |(roundHalfEven r : ℚ) - r| ≤ 1 / 2 := by
  have h1 := Int.floor_le r
  have h2 := Int.lt_floor_add_one r
  unfold roundHalfEven
  split_ifs <;> rw [abs_le] <;> constructor <;> push_cast <;> linarith

/-- The stored value is a multiple of the spacing at `x` and the rounding error
is at most half a spacing. -/
theorem roundBinary32_error (x y : ℚ) (h : roundBinary32 x = some y) :
    (∃ m : ℤ, y = m * 2 ^ ulpExponent x) ∧ |y - x| ≤ 2 ^ ulpExponent x / 2 := by
  unfold roundBinary32 at h
  split_ifs at h
  simp only [Option.some.injEq] at h
  have hq : (0 : ℚ) < 2 ^ ulpExponent x := zpow_pos (by norm_num) _
  refine ⟨⟨_, h.symm⟩, ?_⟩
  have he := roundHalfEven_error (x / 2 ^ ulpExponent x)
  have hx : y - x = ((roundHalfEven (x / 2 ^ ulpExponent x) : ℚ) - x / 2 ^ ulpExponent x) *
      2 ^ ulpExponent x := by
    rw [← h]
    field_simp
  rw [hx, abs_mul, abs_of_pos hq]
  calc |(roundHalfEven (x / 2 ^ ulpExponent x) : ℚ) - x / 2 ^ ulpExponent x| * 2 ^ ulpExponent x
      ≤ 1 / 2 * 2 ^ ulpExponent x := mul_le_mul_of_nonneg_right he hq.le
    _ = 2 ^ ulpExponent x / 2 := by ring

/-- The literal `0.7` of line 111 stored in a `float`. -/
theorem roundBinary32_default_angle : roundBinary32 (7 / 10) = some (11744051 / 16777216) :=
  roundBinary32_eval (7 / 10) (-1) (-24) 11744051 11744051 (11744051 / 16777216)
    (by norm_num) (by norm_num) (by norm_num) (by norm_num) (by norm_num) (by norm_num)
    (by norm_num)

/-- The integers `1`, `2` and `3` are binary32 values. -/
theorem roundBinary32_small :
    roundBinary32 1 = some 1 ∧ roundBinary32 2 = some 2 ∧ roundBinary32 3 = some 3 :=
  ⟨roundBinary32_eval 1 0 (-23) 8388608 8388608 1
      (by norm_num) (by norm_num) (by norm_num) (by norm_num) (by norm_num) (by norm_num)
      (by norm_num),
    roundBinary32_eval 2 1 (-22) 8388608 8388608 2
      (by norm_num) (by norm_num) (by norm_num) (by norm_num) (by norm_num) (by norm_num)
      (by norm_num),
    roundBinary32_eval 3 1 (-22) 12582912 12582912 3
      (by norm_num) (by norm_num) (by norm_num) (by norm_num) (by norm_num) (by norm_num)
      (by norm_num)⟩

theorem roundBinary32_neg_one : roundBinary32 (-1) = some (-1) :=
  roundBinary32_eval (-1) 0 (-23) (-8388608) (-8388608) (-1)
    (by norm_num) (by norm_num) (by norm_num) (by norm_num) (by norm_num) (by norm_num)
    (by norm_num)

/-- With the conversion that changes nothing the explicit form of the distance
increment is the exact one. -/
theorem incDistanceToInspectFloat_some {σ : Type} (self : MissionPlannerInspection σ)
    (b : Bool) :
    incDistanceToInspectFloat some self b = some (incDistanceToInspect self b) := by
  cases b <;> rfl

/-- With the conversion that changes nothing the explicit form of the angle
increment is the exact one. -/
theorem incRelativeAngleFloat_some {σ : Type} (self : MissionPlannerInspection σ)
    (b : Bool) :
    incRelativeAngleFloat some self b = some (incRelativeAngle self b) := by
  cases b <;> rfl

/-- One call keeps the step parameters, and keeps the distance from becoming
negative when the conversion keeps the sign and a decrease is guarded. -/
theorem runFloat_keeps {σ : Type} (toFloat : ℚ → Option ℚ)
    (hsign : ∀ x y : ℚ, 0 ≤ x → toFloat x = some y → 0 ≤ y)
    (pointOnCircle : Projector) (self next : MissionPlannerInspection σ) (c : Call)
    (hc : Call.runFloat toFloat pointOnCircle self c = some next) :
    next.inspection_params_ = self.inspection_params_ ∧
    (0 ≤ self.inspection_params_.inc_distance → 0 ≤ self.distance_to_inspect_point_ →
      (c = Call.incDistance false →
        self.inspection_params_.inc_distance ≤ self.distance_to_inspect_point_) →
      0 ≤ next.distance_to_inspect_point_) := by
  cases c with
  | incDistance b =>
    cases b
    · simp only [Call.runFloat, incDistanceToInspectFloat, Bool.false_eq_true, if_false,
        Option.map_eq_some'] at hc
      obtain ⟨y, hy, rfl⟩ := hc
      refine ⟨rfl, fun _ _ hg => ?_⟩
      exact hsign _ y (sub_nonneg.mpr (hg rfl)) hy
    · simp only [Call.runFloat, incDistanceToInspectFloat, if_true, Option.map_eq_some'] at hc
      obtain ⟨y, hy, rfl⟩ := hc
      refine ⟨rfl, fun h1 h2 _ => ?_⟩
      exact hsign _ y (add_nonneg h2 h1) hy
  | incAngle b =>
    cases b
    · simp only [Call.runFloat, incRelativeAngleFloat, Bool.false_eq_true, if_false,
        Option.map_eq_some'] at hc
      obtain ⟨y, _, rfl⟩ := hc
      exact ⟨rfl, fun _ h2 _ => h2⟩
    · simp only [Call.runFloat, incRelativeAngleFloat, if_true, Option.map_eq_some'] at hc
      obtain ⟨y, _, rfl⟩ := hc
      exact ⟨rfl, fun _ h2 _ => h2⟩
  | refresh =>
    simp only [Call.runFloat, Option.some.injEq] at hc
    subst hc
    exact ⟨rfl, fun _ h2 _ => h2⟩

/-- A guarded sequence of calls keeps a distance that is not negative from
becoming negative. -/
theorem runCallsFloat_nonneg {σ : Type} (toFloat : ℚ → Option ℚ)
    (hsign : ∀ x y : ℚ, 0 ≤ x → toFloat x = some y → 0 ≤ y)
    (pointOnCircle : Projector) (calls : List Call)
    (self last : MissionPlannerInspection σ)
    (hstep : 0 ≤ self.inspection_params_.inc_distance)
    (hdist : 0 ≤ self.distance_to_inspect_point_)
    (hguard : decreasesGuarded toFloat pointOnCircle self calls = true)
    (hrun : runCallsFloat toFloat pointOnCircle self calls = some last) :
    0 ≤ last.distance_to_inspect_point_ := by
  induction calls generalizing self with
  | nil =>
    simp only [runCallsFloat, Option.some.injEq] at hrun
    rw [← hrun]
    exact hdist
  | cons c calls ih =>
    cases hc : Call.runFloat toFloat pointOnCircle self c with
    | none => simp [runCallsFloat, hc] at hrun
    | some next =>
      simp only [runCallsFloat, hc] at hrun
      simp only [decreasesGuarded, hc, Bool.and_eq_true, Bool.or_eq_true, bne_iff_ne, ne_eq,
        decide_eq_true_eq] at hguard
      obtain ⟨hk, hpos⟩ := runFloat_keeps toFloat hsign pointOnCircle self next c hc
      refine ih next (by rw [hk]; exact hstep) (hpos hstep hdist ?_) hguard.2 hrun
      intro hdec
      rcases hguard.1 with h | h
      · exact absurd hdec h
      · exact h

/-- The predicate `atDistance` is the Euclidean distance statement: the square
root of the squared distance, taken in the reals, equals `d`. -/
theorem atDistance_iff_sqrt (p c : Vector3d) (d : ℚ) :
    atDistance p c d ↔ Real.sqrt ((squaredDistance p c : ℚ) : ℝ) = (d : ℝ) := by
  have hx : (0 : ℝ) ≤ ((squaredDistance p c : ℚ) : ℝ) := by
    have : (0 : ℚ) ≤ squaredDistance p c := by
      unfold squaredDistance
      positivity
    exact_mod_cast this
  constructor
  · rintro ⟨hd, hsq⟩
    have hd1 : (0 : ℝ) ≤ (d : ℝ) := by exact_mod_cast hd
    rw [Real.sqrt_eq_iff_eq_sq hx hd1]
    exact_mod_cast hsq
  · intro h
    have hd1 : (0 : ℝ) ≤ (d : ℝ) := by
      rw [← h]
      exact Real.sqrt_nonneg _
    refine ⟨by exact_mod_cast hd1, ?_⟩
    rw [Real.sqrt_eq_iff_eq_sq hx hd1] at h
    exact_mod_cast h

/-! ## Results -/

/-- C1: `refreshGoals`, for any projector, maps the goal sequence to the
sequence of the same length and order whose element at every index is the old
element with `pos` replaced by the projection of the old `pos` and the rest of
the element unchanged; the empty sequence stays empty and no other member of
the object changes. -/
theorem refreshGoals_replaces_pos {σ : Type} (pointOnCircle : Projector)
    (self : MissionPlannerInspection σ) :
    (refreshGoals pointOnCircle self).goals_ =
      self.goals_.map (fun g => { g with pos := (pointOnCircle self.point_to_inspect_
        self.distance_to_inspect_point_ self.relative_angle_ g.pos) }) ∧
    (refreshGoals pointOnCircle self).goals_.length = self.goals_.length ∧
    (∀ i : ℕ, ((refreshGoals pointOnCircle self).goals_[i]?).map state.pos =
      (self.goals_[i]?).map (fun g =>
        pointOnCircle self.point_to_inspect_ self.distance_to_inspect_point_
          self.relative_angle_ g.pos)) ∧
    (∀ i : ℕ, ((refreshGoals pointOnCircle self).goals_[i]?).map state.rest =
      (self.goals_[i]?).map state.rest) ∧
    refreshGoals pointOnCircle ({ self with goals_ := [] } : MissionPlannerInspection σ) =
      { self with goals_ := [] } ∧
    (refreshGoals pointOnCircle self).point_to_inspect_ = self.point_to_inspect_ ∧
    (refreshGoals pointOnCircle self).distance_to_inspect_point_ =
      self.distance_to_inspect_point_ ∧
    (refreshGoals pointOnCircle self).relative_angle_ = self.relative_angle_ ∧
    (refreshGoals pointOnCircle self).inspection_params_ = self.inspection_params_ := by
  refine ⟨refreshLoop_eq_map _ _, refreshLoop_length _ _, ?_, ?_, rfl, rfl, rfl, rfl, rfl⟩
  · intro i
    simp only [refreshGoals, refreshLoop_eq_map, List.getElem?_map, Option.map_map]
    rfl
  · intro i
    simp only [refreshGoals, refreshLoop_eq_map, List.getElem?_map, Option.map_map]
    rfl

/-- C2: `incDistanceToInspect(true)` leaves the distance equal to the old value
plus `inc_distance`, `incDistanceToInspect(false)` to the old value minus
`inc_distance`, and `getDistanceToInspect` returns that value. -/
theorem incDistanceToInspect_value {σ : Type} (self : MissionPlannerInspection σ) :
    getDistanceToInspect (incDistanceToInspect self true) =
      self.distance_to_inspect_point_ + self.inspection_params_.inc_distance ∧
    getDistanceToInspect (incDistanceToInspect self false) =
      self.distance_to_inspect_point_ - self.inspection_params_.inc_distance ∧
    (incDistanceToInspect self true).distance_to_inspect_point_ =
      self.distance_to_inspect_point_ + self.inspection_params_.inc_distance ∧
    (incDistanceToInspect self false).distance_to_inspect_point_ =
      self.distance_to_inspect_point_ - self.inspection_params_.inc_distance :=
  ⟨rfl, rfl, rfl, rfl⟩

/-- C3: `incRelativeAngle(true)` leaves the relative angle equal to the old
value plus `inc_angle`, `incRelativeAngle(false)` to the old value minus
`inc_angle`, with no wrapping, and `getRelativeAngle` returns that value. -/
theorem incRelativeAngle_value {σ : Type} (self : MissionPlannerInspection σ) :
    getRelativeAngle (incRelativeAngle self true) =
      self.relative_angle_ + self.inspection_params_.inc_angle ∧
    getRelativeAngle (incRelativeAngle self false) =
      self.relative_angle_ - self.inspection_params_.inc_angle ∧
    (incRelativeAngle self true).relative_angle_ =
      self.relative_angle_ + self.inspection_params_.inc_angle ∧
    (incRelativeAngle self false).relative_angle_ =
      self.relative_angle_ - self.inspection_params_.inc_angle :=
  ⟨rfl, rfl, rfl, rfl⟩

/-- C6: no mutator refreshes: each of the five mutators leaves the goal
sequence and the step parameters unchanged and writes its own member only (the
point setter the point, the two distance mutators the distance, the two angle
mutators the angle). -/
theorem mutators_frame {σ : Type} (self : MissionPlannerInspection σ)
    (_point : Vector3d) (v : ℚ) (b : Bool) :
    sameExceptPoint self (setPointToInspect self _point) ∧
    sameExceptDistance self (setDistanceToInspect self v) ∧
    sameExceptDistance self (incDistanceToInspect self b) ∧
    sameExceptAngle self (setRelativeAngle self v) ∧
    sameExceptAngle self (incRelativeAngle self b) := by
  cases b <;>
    simp [sameExceptPoint, sameExceptDistance, sameExceptAngle, setPointToInspect,
      setDistanceToInspect, incDistanceToInspect, setRelativeAngle, incRelativeAngle]

/-- C7, as the code behaves: no lower bound on the distance is enforced; from
the constructed object (distance `3`) with a finite step `inc_distance` that is
not negative, any finite sequence of increment and refresh calls in which every
`incDistanceToInspect(false)` is made while the distance is at least
`inc_distance` leaves a distance that is not negative, whenever the stored
values stay finite.  It holds for every conversion to `float` that keeps the
sign. -/
theorem distance_nonneg_of_guarded {σ : Type} (toFloat : ℚ → Option ℚ)
    (pointOnCircle : Projector) (_inspection_params : inspection_params)
    (goals : List (state σ)) (calls : List Call) (last : MissionPlannerInspection σ)
    (hsign : ∀ x y : ℚ, 0 ≤ x → toFloat x = some y → 0 ≤ y)
    (hstep : 0 ≤ _inspection_params.inc_distance)
    (hguard : decreasesGuarded toFloat pointOnCircle
      (constructed _inspection_params goals) calls = true)
    (hrun : runCallsFloat toFloat pointOnCircle
      (constructed _inspection_params goals) calls = some last) :
    0 ≤ last.distance_to_inspect_point_ :=
  runCallsFloat_nonneg toFloat hsign pointOnCircle calls
    (constructed _inspection_params goals) last hstep (by simp [constructed]) hguard hrun

/-- C7 fails as stated: with the step `inc_distance = 1`, which is not negative,
four decreasing calls on the constructed object leave the distance at `-1`,
with the binary32 conversion and with exact numbers alike. -/
theorem distance_negative_after_four_decreases :
    (0 : ℚ) ≤ (inspection_params.mk 1 0).inc_distance ∧
    runCallsFloat roundBinary32 (fun _ _ _ p => p)
      (constructed (inspection_params.mk 1 0) ([] : List (state Unit)))
      [Call.incDistance false, Call.incDistance false, Call.incDistance false,
        Call.incDistance false] =
      some (setDistanceToInspect
        (constructed (inspection_params.mk 1 0) ([] : List (state Unit))) (-1)) ∧
    runCallsFloat some (fun _ _ _ p => p)
      (constructed (inspection_params.mk 1 0) ([] : List (state Unit)))
      [Call.incDistance false, Call.incDistance false, Call.incDistance false,
        Call.incDistance false] =
      some (setDistanceToInspect
        (constructed (inspection_params.mk 1 0) ([] : List (state Unit))) (-1)) ∧
    (incDistanceToInspect (incDistanceToInspect (incDistanceToInspect (incDistanceToInspect
      (constructed (inspection_params.mk 1 0) ([] : List (state Unit)))
      false) false) false) false).distance_to_inspect_point_ = -1 ∧
    ¬ (0 ≤ (setDistanceToInspect
      (constructed (inspection_params.mk 1 0) ([] : List (state Unit)))
      (-1)).distance_to_inspect_point_) := by
  refine ⟨by norm_num, ?_, ?_, ?_, ?_⟩ <;>
    norm_num [runCallsFloat, Call.runFloat, incDistanceToInspectFloat, incDistanceToInspect,
      constructed, setDistanceToInspect, roundBinary32_small.1, roundBinary32_small.2.1,
      roundBinary32_zero, roundBinary32_neg_one]

/-- C8: when the projector, at the parameters of the object, is idempotent,
two `refreshGoals` calls in a row leave the object as one call does. -/
theorem refreshGoals_idempotent {σ : Type} (pointOnCircle : Projector)
    (self : MissionPlannerInspection σ)
    (h : ∀ p : Vector3d,
      pointOnCircle self.point_to_inspect_ self.distance_to_inspect_point_ self.relative_angle_
        (pointOnCircle self.point_to_inspect_ self.distance_to_inspect_point_
          self.relative_angle_ p) =
      pointOnCircle self.point_to_inspect_ self.distance_to_inspect_point_
        self.relative_angle_ p) :
    refreshGoals pointOnCircle (refreshGoals pointOnCircle self) =
      refreshGoals pointOnCircle self := by
  simp only [refreshGoals]
  rw [refreshLoop_idem _ h]

/-- C9: when every result of the projector, at the parameters of the object,
lies at distance `distance_to_inspect_point_` from `point_to_inspect_`, every
goal of the sequence after `refreshGoals` lies at that distance for the
parameters the object then holds. -/
theorem refreshGoals_consistent {σ : Type} (pointOnCircle : Projector)
    (self : MissionPlannerInspection σ)
    (h : ∀ p : Vector3d,
      atDistance
        (pointOnCircle self.point_to_inspect_ self.distance_to_inspect_point_
          self.relative_angle_ p)
        self.point_to_inspect_ self.distance_to_inspect_point_) :
    ∀ g ∈ (refreshGoals pointOnCircle self).goals_,
      atDistance g.pos (refreshGoals pointOnCircle self).point_to_inspect_
        (refreshGoals pointOnCircle self).distance_to_inspect_point_ := by
  intro g hg
  obtain ⟨g0, _, hpos, _⟩ := mem_refreshLoop _ _ g hg
  rw [hpos]
  exact h g0.pos

/-- C10: the absolute setters store the value as given, for every value, zero
and negative ones included; the getters return it, and a later set overrides an
earlier one. -/
theorem setters_store_value {σ : Type} (self : MissionPlannerInspection σ)
    (p q : Vector3d) (v w : ℚ) :
    getDistanceToInspect (setDistanceToInspect self v) = v ∧
    getRelativeAngle (setRelativeAngle self v) = v ∧
    getPointToInspect (setPointToInspect self p) = p ∧
    setDistanceToInspect (setDistanceToInspect self w) v = setDistanceToInspect self v ∧
    setRelativeAngle (setRelativeAngle self w) v = setRelativeAngle self v ∧
    setPointToInspect (setPointToInspect self q) p = setPointToInspect self p :=
  ⟨rfl, rfl, rfl, rfl, rfl, rfl⟩

/-- Witness of C8: the projector that keeps the altitude of the point and puts
it on the x axis of the circle is idempotent; on an object with two goals at
the default parameters the second refresh changes nothing, and the refreshed
goals are the expected ones. -/
theorem refreshGoals_idempotent_witness :
    (∀ p : Vector3d,
      (fun (c : Vector3d) (d _a : ℚ) (q : Vector3d) => (⟨c.x + d, c.y, q.z⟩ : Vector3d))
        ⟨0, 0, 0⟩ 3 (7 / 10)
        ((fun (c : Vector3d) (d _a : ℚ) (q : Vector3d) => (⟨c.x + d, c.y, q.z⟩ : Vector3d))
          ⟨0, 0, 0⟩ 3 (7 / 10) p) =
      (fun (c : Vector3d) (d _a : ℚ) (q : Vector3d) => (⟨c.x + d, c.y, q.z⟩ : Vector3d))
        ⟨0, 0, 0⟩ 3 (7 / 10) p) ∧
    refreshGoals (fun c d _ q => ⟨c.x + d, c.y, q.z⟩)
      (refreshGoals (fun c d _ q => ⟨c.x + d, c.y, q.z⟩)
        (MissionPlannerInspection.mk [⟨⟨1, 2, 5⟩, ()⟩, ⟨⟨3, 0, 0⟩, ()⟩] ⟨0, 0, 0⟩ 3 (7 / 10)
          ⟨1 / 2, 1 / 10⟩)) =
      refreshGoals (fun c d _ q => ⟨c.x + d, c.y, q.z⟩)
        (MissionPlannerInspection.mk [⟨⟨1, 2, 5⟩, ()⟩, ⟨⟨3, 0, 0⟩, ()⟩] ⟨0, 0, 0⟩ 3 (7 / 10)
          ⟨1 / 2, 1 / 10⟩) ∧
    (refreshGoals (fun c d _ q => ⟨c.x + d, c.y, q.z⟩)
        (MissionPlannerInspection.mk [⟨⟨1, 2, 5⟩, ()⟩, ⟨⟨3, 0, 0⟩, ()⟩] ⟨0, 0, 0⟩ 3 (7 / 10)
          ⟨1 / 2, 1 / 10⟩)).goals_ = [⟨⟨3, 0, 5⟩, ()⟩, ⟨⟨3, 0, 0⟩, ()⟩] :=
  ⟨fun _ => rfl,
    refreshGoals_idempotent (fun c d _ q => ⟨c.x + d, c.y, q.z⟩)
      (MissionPlannerInspection.mk [⟨⟨1, 2, 5⟩, ()⟩, ⟨⟨3, 0, 0⟩, ()⟩] ⟨0, 0, 0⟩ 3 (7 / 10)
        ⟨1 / 2, 1 / 10⟩)
      (fun _ => rfl),
    by norm_num [refreshGoals, refreshLoop]⟩

/-- Witness of C9: the projector that returns the point of the circle on the x
axis meets the distance contract at centre `(0, 0, 0)` and distance `3`; after
the refresh the two goals of the object, one of which was on the circle
already, lie at distance `3` from the centre. -/
theorem refreshGoals_consistent_witness :
    (∀ p : Vector3d,
      atDistance
        ((fun (c : Vector3d) (d _a : ℚ) (_q : Vector3d) => (⟨c.x + d, c.y, c.z⟩ : Vector3d))
          ⟨0, 0, 0⟩ 3 (7 / 10) p)
        ⟨0, 0, 0⟩ 3) ∧
    (∀ g ∈ (refreshGoals (fun c d _ _ => ⟨c.x + d, c.y, c.z⟩)
        (MissionPlannerInspection.mk [⟨⟨1, 2, 5⟩, ()⟩, ⟨⟨3, 0, 0⟩, ()⟩] ⟨0, 0, 0⟩ 3 (7 / 10)
          ⟨1 / 2, 1 / 10⟩)).goals_,
      atDistance g.pos ⟨0, 0, 0⟩ 3) ∧
    (refreshGoals (fun c d _ _ => ⟨c.x + d, c.y, c.z⟩)
        (MissionPlannerInspection.mk [⟨⟨1, 2, 5⟩, ()⟩, ⟨⟨3, 0, 0⟩, ()⟩] ⟨0, 0, 0⟩ 3 (7 / 10)
          ⟨1 / 2, 1 / 10⟩)).goals_ = [⟨⟨3, 0, 0⟩, ()⟩, ⟨⟨3, 0, 0⟩, ()⟩] :=
  ⟨fun _ => by norm_num [atDistance, squaredDistance],
    refreshGoals_consistent (fun c d _ _ => ⟨c.x + d, c.y, c.z⟩)
      (MissionPlannerInspection.mk [⟨⟨1, 2, 5⟩, ()⟩, ⟨⟨3, 0, 0⟩, ()⟩] ⟨0, 0, 0⟩ 3 (7 / 10)
        ⟨1 / 2, 1 / 10⟩)
      (fun _ => by norm_num [atDistance, squaredDistance]),
    by norm_num [refreshGoals, refreshLoop]⟩

/-- Witness of C7: with the binary32 conversion and the step `1`, three guarded
decreases take the distance of the constructed object from `3` to `0`; an
increase, a refresh and an angle increase follow, and the distance ends at `1`. -/
theorem distance_nonneg_of_guarded_witness :
    (∀ x y : ℚ, 0 ≤ x → roundBinary32 x = some y → 0 ≤ y) ∧
    (0 : ℚ) ≤ (inspection_params.mk 1 (1 / 2)).inc_distance ∧
    decreasesGuarded roundBinary32 (fun _ _ _ p => p)
      (constructed (inspection_params.mk 1 (1 / 2)) ([] : List (state Unit)))
      [Call.incDistance false, Call.incDistance false, Call.incDistance false,
        Call.incDistance true, Call.refresh, Call.incAngle true] = true ∧
    runCallsFloat roundBinary32 (fun _ _ _ p => p)
      (constructed (inspection_params.mk 1 (1 / 2)) ([] : List (state Unit)))
      [Call.incDistance false, Call.incDistance false, Call.incDistance false,
        Call.incDistance true, Call.refresh, Call.incAngle true] =
      some (MissionPlannerInspection.mk [] Vector3d.Zero 1 (5033165 / 4194304)
        (inspection_params.mk 1 (1 / 2))) ∧
    (0 : ℚ) ≤ (MissionPlannerInspection.mk ([] : List (state Unit)) Vector3d.Zero 1
      (5033165 / 4194304) (inspection_params.mk 1 (1 / 2))).distance_to_inspect_point_ :=
  have e2 : roundBinary32 (20132659 / 16777216) = some (5033165 / 4194304) :=
    roundBinary32_eval (20132659 / 16777216) 0 (-23) 10066329 10066330 (5033165 / 4194304)
      (by norm_num) (by norm_num) (by norm_num) (by norm_num) (by norm_num) (by norm_num)
      (by norm_num)
  have hguard : decreasesGuarded roundBinary32 (fun _ _ _ p => p)
      (constructed (inspection_params.mk 1 (1 / 2)) ([] : List (state Unit)))
      [Call.incDistance false, Call.incDistance false, Call.incDistance false,
        Call.incDistance true, Call.refresh, Call.incAngle true] = true := by
    norm_num [decreasesGuarded, Call.runFloat, incDistanceToInspectFloat,
      incRelativeAngleFloat, refreshGoals, refreshLoop, constructed, setDistanceToInspect,
      setRelativeAngle, roundBinary32_small.1, roundBinary32_small.2.1, roundBinary32_zero, e2]
  have hrun : runCallsFloat roundBinary32 (fun _ _ _ p => p)
      (constructed (inspection_params.mk 1 (1 / 2)) ([] : List (state Unit)))
      [Call.incDistance false, Call.incDistance false, Call.incDistance false,
        Call.incDistance true, Call.refresh, Call.incAngle true] =
      some (MissionPlannerInspection.mk [] Vector3d.Zero 1 (5033165 / 4194304)
        (inspection_params.mk 1 (1 / 2))) := by
    norm_num [runCallsFloat, Call.runFloat, incDistanceToInspectFloat,
      incRelativeAngleFloat, refreshGoals, refreshLoop, constructed, setDistanceToInspect,
      setRelativeAngle, roundBinary32_small.1, roundBinary32_small.2.1, roundBinary32_zero, e2]
  ⟨roundBinary32_nonneg, by norm_num, hguard, hrun,
    distance_nonneg_of_guarded roundBinary32 (fun _ _ _ p => p)
      (inspection_params.mk 1 (1 / 2)) [] _ _ roundBinary32_nonneg (by norm_num) hguard hrun⟩

end MissionPlanner
